import Mathlib

/-!
Shallow embedding of the tow-job workflow service (FastAPI/SQLAlchemy app)
and proofs about its access control, lifecycle, audit-log, upload and
admin-safety behaviour.

Modelling conventions, fixed once for the whole file:

* Database ids, names, phones, plate numbers, event messages are `String`.
  `uuid.uuid4()` is modelled as a fresh-name generator driven by a counter
  (`seed`) threaded through the database state; freshness/collision facts
  are not needed by any theorem.
* Python `float` coordinates are modelled as `Rat`; the only float
  operations the code performs on them are order comparisons against the
  integer bounds (-90)..90 and (-180)..180, on which `Rat` agrees with
  IEEE doubles for every representable input.
* Filesystem file names and paths are lists of byte codes (`List Nat`),
  so that `str.lower()` and path-separator reasoning stay elementary.
* Timestamps: rows are kept in insertion order, which is creation order
  (single-threaded request), so `ORDER BY created_at ASC` on events is the
  identity on our stored list and `created_at` columns are elided.
* `app/core/db.py` (the `get_db` session dependency) is not part of the
  sources; per the spec, session `add`s are pending until `commit()` and a
  request that raises before `commit()` leaves the committed store
  unchanged. Endpoint functions therefore return the committed store they
  leave behind: unchanged on every error path, updated only at the single
  `db.commit()` point.
-/

deriving instance DecidableEq for Except

namespace TowApp

/-- `app/models/user.py`: `UserRole` enum. -/
inductive UserRole where
  | OFFICER | DRIVER | DISPATCHER | ADMIN
deriving DecidableEq, Repr

/-- `app/models/tow_job.py`: `TowStatus` enum. -/
inductive TowStatus where
  | NEW | ASSIGNED | EN_ROUTE | ARRIVED | TOWED | CLOSED | CANCELLED
deriving DecidableEq, Repr

/-- `TowStatus.value`: the string payload of the enum member. -/
def TowStatus.value : TowStatus → String
  | .NEW => "NEW"
  | .ASSIGNED => "ASSIGNED"
  | .EN_ROUTE => "EN_ROUTE"
  | .ARRIVED => "ARRIVED"
  | .TOWED => "TOWED"
  | .CLOSED => "CLOSED"
  | .CANCELLED => "CANCELLED"

/-- `UserRole.value`. -/
def UserRole.value : UserRole → String
  | .OFFICER => "OFFICER"
  | .DRIVER => "DRIVER"
  | .DISPATCHER => "DISPATCHER"
  | .ADMIN => "ADMIN"

/-- `app/models/user.py`: `User` row (`created_at` elided, see header). -/
structure User where
  id : String
  name : String
  phone : String
  role : UserRole
  password_hash : String
  is_active : Bool
deriving DecidableEq, Repr

/-- `app/models/tow_job.py`: `TowJob` row. -/
structure TowJob where
  id : String
  plate_number : String
  officer_id : String
  status : TowStatus
  assigned_driver_id : Option String
  violation_type : Option String
  notes : Option String
  location_lat : Rat
  location_lng : Rat
  location_accuracy_m : Option Rat
deriving DecidableEq, Repr

/-- `app/models/photo.py`: `TowJobPhoto` row (`file_path` as byte codes). -/
structure TowJobPhoto where
  id : String
  tow_job_id : String
  uploaded_by_user_id : String
  photo_type : String
  file_path : List Nat
  content_type : String
  size_bytes : Nat
  lat : Option Rat
  lng : Option Rat
  accuracy_m : Option Rat
  captured_at : Option String
deriving DecidableEq, Repr

/-- `app/models/event.py`: `TowJobEvent` row (append-only audit entry). -/
structure TowJobEvent where
  id : String
  tow_job_id : String
  actor_user_id : String
  event_type : String
  message : Option String
deriving DecidableEq, Repr

/-- The committed relational store plus the uuid4 counter. -/
structure DB where
  users : List User
  jobs : List TowJob
  photos : List TowJobPhoto
  events : List TowJobEvent
  seed : Nat
deriving DecidableEq, Repr

/-- `str(uuid.uuid4())` modelled as a counter-driven fresh name. Like a
real uuid4 rendering (hex digits and dashes), it never contains a path
separator. -/
def genId (n : Nat) : String := "uuid-" ++ Nat.repr n

/-- `fastapi.HTTPException(status_code, detail)`. -/
structure HErr where
  status : Nat
  detail : String
deriving DecidableEq, Repr

/-- The HTTP status of a handler outcome (`none` on success). -/
def errStatus {α : Type} : Except HErr α → Option Nat
  | Except.error e => some e.status
  | Except.ok _ => none

/-- `db.query(TowJob).filter(TowJob.id == job_id).first()`. -/
def findJob (jobs : List TowJob) (job_id : String) : Option TowJob :=
  jobs.find? (fun j => j.id = job_id)

/-- `db.query(User).filter(User.id == user_id).first()`. -/
def findUser (users : List User) (user_id : String) : Option User :=
  users.find? (fun u => u.id = user_id)

/-- `app/routers/tow_jobs.py`, `_assert_job_access`: shared access check.
Dispatchers/admin pass; officers pass on their own jobs; drivers pass on
jobs assigned to them; otherwise 403 "Not your job". -/
def _assert_job_access (user : User) (job : TowJob) : Except HErr Unit :=
  if user.role = UserRole.DISPATCHER ∨ user.role = UserRole.ADMIN then
    Except.ok ()
  else if user.role = UserRole.OFFICER ∧ job.officer_id = user.id then
    Except.ok ()
  else if user.role = UserRole.DRIVER ∧ job.assigned_driver_id = some user.id then
    Except.ok ()
  else
    Except.error ⟨403, "Not your job"⟩

/-- `app/core/auth.py`, `require_roles(*roles)`: 403 "Forbidden" when the
caller's role is outside the allowed set. -/
def require_roles (roles : List UserRole) (user : User) : Except HErr Unit :=
  if user.role ∈ roles then Except.ok () else Except.error ⟨403, "Forbidden"⟩

/-- Modelled from the spec: `app/core/db.py` (the `get_db` session
dependency and the SQLAlchemy session it yields) is not among the source
files. Per the spec's propagation policy ("once a mutation begins, partial
failures ... must roll back any associated database writes that were meant
to be atomic with it") and control flow ("commit at the end"), pending
`db.add(...)` calls materialise in the committed store only when
`db.commit()` runs; a request that raises earlier leaves the committed
store unchanged. `commitAdds` is that commit step for row insertions: it
appends the request's pending rows and records the uuid4 draws made. -/
def commitAdds (db : DB) (newJobs : List TowJob) (newPhotos : List TowJobPhoto)
    (newEvents : List TowJobEvent) (seedUsed : Nat) : DB :=
  { db with jobs := db.jobs ++ newJobs, photos := db.photos ++ newPhotos,
            events := db.events ++ newEvents, seed := db.seed + seedUsed }

/-! ## Schemas (`app/schemas/tow_job.py`, pydantic request models) -/

/-- A `TowJobCreate` request body as received, before pydantic validation:
every field may be absent. -/
structure RawTowJobCreate where
  plate_number : Option String
  location_lat : Option Rat
  location_lng : Option Rat
  location_accuracy_m : Option Rat
  violation_type : Option String
  notes : Option String
deriving DecidableEq, Repr

/-- `app/schemas/tow_job.py`, `TowJobCreate` after validation. -/
structure TowJobCreate where
  plate_number : String
  location_lat : Rat
  location_lng : Rat
  location_accuracy_m : Option Rat
  violation_type : Option String
  notes : Option String
deriving DecidableEq, Repr

/-- Pydantic validation of `TowJobCreate`: `plate_number` is required with
length 2..32; `location_lat` and `location_lng` are required floats with
no further constraint. FastAPI surfaces pydantic failures as 422. -/
def TowJobCreate.validate (raw : RawTowJobCreate) : Except HErr TowJobCreate :=
  match raw.plate_number, raw.location_lat, raw.location_lng with
  | some plate, some lat, some lng =>
      if 2 ≤ plate.length ∧ plate.length ≤ 32 then
        Except.ok ⟨plate, lat, lng, raw.location_accuracy_m, raw.violation_type, raw.notes⟩
      else
        Except.error ⟨422, "plate_number length out of range"⟩
  | _, _, _ => Except.error ⟨422, "field required"⟩

/-- `app/schemas/tow_job.py`, `TowJobAssign`. -/
structure TowJobAssign where
  driver_id : String
deriving DecidableEq, Repr

/-- `app/schemas/tow_job.py`, `TowJobStatusUpdate`. -/
structure TowJobStatusUpdate where
  status : TowStatus
  notes : Option String
deriving DecidableEq, Repr

/-- Python truthiness of an `Optional[str]`: `None` and `""` are falsy. -/
def strTruthy : Option String → Bool
  | none => false
  | some s => s ≠ ""

/-- Python `str.strip()`: drop leading and trailing whitespace (the ASCII
whitespace set suffices for every input a theorem below touches). -/
def pyStrip (s : String) : String :=
  String.mk (((s.data.dropWhile Char.isWhitespace).reverse.dropWhile
    Char.isWhitespace).reverse)

/-- Python `str.upper()`: per-character ASCII upcasing. -/
def pyUpper (s : String) : String := String.mk (s.data.map Char.toUpper)

/-- `x is not None and not (lo <= x <= hi)` for an `Optional[float]`. -/
def geoRangeBad (lo hi : Rat) (o : Option Rat) : Bool :=
  match o with
  | none => false
  | some x => ! decide (lo ≤ x ∧ x ≤ hi)

/-! ## Evidence store (`app/services/storage.py`) and filesystem model -/

/-- Byte/codepoint rendering of a string (file names and paths live in the
codes world so that `str.lower()` stays elementary). -/
def str2codes (s : String) : List Nat := s.toList.map Char.toNat

def dotCode : Nat := 46

def slashCode : Nat := 47

/-- Python `str.lower()` per character: ASCII `A`-`Z` map to `a`-`z`. -/
def lowerCode (c : Nat) : Nat := if 65 ≤ c ∧ c ≤ 90 then c + 32 else c

/-- Suffix of `l` strictly after its last `.` (what
`filename.rsplit(".", 1)[-1]` yields when `"."` occurs in `filename`). -/
def afterLastDot (l : List Nat) : List Nat :=
  (l.reverse.takeWhile (fun c => c ≠ dotCode)).reverse

/-- `app/services/storage.py`, `_guess_ext`: empty for a missing/empty or
dot-free filename, else `"."` plus the lowercased text after the last dot. -/
def _guess_ext (filename : Option (List Nat)) : List Nat :=
  match filename with
  | none => []
  | some f =>
      if f = [] ∨ dotCode ∉ f then []
      else dotCode :: (afterLastDot f).map lowerCode

/-- The upload filesystem: an association list of (path, contents). -/
abbrev Disk := List (List Nat × List Nat)

def getFile (d : Disk) (p : List Nat) : Option (List Nat) :=
  (d.find? (fun e => e.1 = p)).map (fun e => e.2)

/-- `open(path, "wb")` + writes: truncates any existing file at `path`. -/
def putFile (d : Disk) (p : List Nat) (c : List Nat) : Disk :=
  d.filter (fun e => e.1 ≠ p) ++ [(p, c)]

/-- `os.remove(path)` (with the surrounding `os.path.exists` guard). -/
def removeFile (d : Disk) (p : List Nat) : Disk :=
  d.filter (fun e => e.1 ≠ p)

/-- `app/core/config.py`, `Settings`: the one knob the storage layer
reads. `MAX_UPLOAD_MB` defaults to 8. -/
structure Settings where
  MAX_UPLOAD_MB : Nat
deriving DecidableEq, Repr

/-- `fastapi.UploadFile`: client filename, content type and byte stream. -/
structure UploadFile where
  filename : Option (List Nat)
  content_type : String
  content : List Nat
deriving DecidableEq, Repr

/-- `file.file.read(1024 * 1024)` reads 1MB chunks. -/
def chunkSize : Nat := 1024 * 1024

/-- The sequence of chunks the `while True` read loop observes, recursing
on a fuel bound (any fuel ≥ the stream length gives the loop's behaviour;
structural recursion keeps the definition kernel-reducible). -/
def splitChunksFuel : Nat → List Nat → List (List Nat)
  | _, [] => []
  | 0, _ :: _ => []
  | fuel + 1, a :: as =>
      ((a :: as).take chunkSize) :: splitChunksFuel fuel ((a :: as).drop chunkSize)

/-- The chunks read from a byte stream. -/
def splitChunks (l : List Nat) : List (List Nat) := splitChunksFuel l.length l

/-- The body of `save_upload_streaming`'s write loop: count each chunk,
fail with 413 once the running total exceeds the ceiling (before writing
the offending chunk), otherwise append it to the file. -/
def writeChunks (cfg : Settings) : List (List Nat) → Nat → List Nat →
    Except HErr (List Nat × Nat)
  | [], bytes_written, data => Except.ok (data, bytes_written)
  | chunk :: rest, bytes_written, data =>
      if bytes_written + chunk.length > cfg.MAX_UPLOAD_MB * 1024 * 1024 then
        Except.error ⟨413, "File too large. Max is " ++ toString cfg.MAX_UPLOAD_MB ++ "MB."⟩
      else
        writeChunks cfg rest (bytes_written + chunk.length) (data ++ chunk)

/-- `app/services/storage.py`, `save_upload_streaming`: store the stream
under `uploads/<uuid4><guessed ext>` in 1MB chunks enforcing the size
ceiling; on an exception remove the partial file and re-raise. The
`open(path, "wb")` call succeeds exactly when the path's parent directory
exists: `ensure_upload_dir` creates `uploads`, and nothing ever creates a
directory below it, so the open raises (FileNotFoundError, reaching the
`except Exception` branch as a 500 with nothing on disk to remove) iff
`safe_name` contains a path separator. The 500 detail abbreviates the
source's `f"Upload failed: {e}"`, whose tail is OS error text; transient,
input-independent I/O failures (e.g. a full disk) stay unmodelled. -/
def save_upload_streaming (cfg : Settings) (seed : Nat) (disk : Disk)
    (file : UploadFile) : (Except HErr (List Nat × Nat)) × Disk :=
  let ext := _guess_ext file.filename
  let safe_name := str2codes (genId seed) ++ ext
  let path := str2codes "uploads/" ++ safe_name
  if slashCode ∈ safe_name then
    (Except.error ⟨500, "Upload failed"⟩, disk)
  else
    match writeChunks cfg (splitChunks file.content) 0 [] with
    | Except.ok (data, n) => (Except.ok (path, n), putFile disk path data)
    | Except.error e => (Except.error e, removeFile disk path)

/-- Committed database plus upload filesystem: the state a request reads
and (at commit) writes. -/
structure SysState where
  db : DB
  disk : Disk
deriving DecidableEq, Repr

/-! ## Endpoints (`app/routers/tow_jobs.py`) -/

/-- `app/routers/tow_jobs.py`, `create_tow_job` (POST /tow-jobs): gated on
OFFICER/ADMIN, builds the job (plate stripped and upper-cased, status NEW,
location taken from the payload as-is), logs a CREATED event, commits. -/
def create_tow_job (db : DB) (user : User) (payload : TowJobCreate) :
    (Except HErr TowJob) × DB :=
  match require_roles [UserRole.OFFICER, UserRole.ADMIN] user with
  | Except.error e => (Except.error e, db)
  | Except.ok () =>
      let job : TowJob :=
        { id := genId db.seed
          plate_number := pyUpper (pyStrip payload.plate_number)
          officer_id := user.id
          status := TowStatus.NEW
          assigned_driver_id := none
          violation_type := payload.violation_type
          notes := payload.notes
          location_lat := payload.location_lat
          location_lng := payload.location_lng
          location_accuracy_m := payload.location_accuracy_m }
      let ev : TowJobEvent :=
        { id := genId (db.seed + 1)
          tow_job_id := job.id
          actor_user_id := user.id
          event_type := "CREATED"
          message := some ("Job created for plate " ++ job.plate_number) }
      (Except.ok job, commitAdds db [job] [] [ev] 2)

/-- `app/routers/tow_jobs.py`, `assign_driver` (POST /tow-jobs/{id}/assign):
gated on DISPATCHER/ADMIN; 404 when the job is missing, 400 when the
candidate is not an active DRIVER; else sets the driver, forces status
ASSIGNED, logs an ASSIGNED event, commits. -/
def assign_driver (db : DB) (user : User) (job_id : String)
    (payload : TowJobAssign) : (Except HErr TowJob) × DB :=
  match require_roles [UserRole.DISPATCHER, UserRole.ADMIN] user with
  | Except.error e => (Except.error e, db)
  | Except.ok () =>
  match findJob db.jobs job_id with
  | none => (Except.error ⟨404, "Tow job not found"⟩, db)
  | some job =>
  match db.users.find? (fun u =>
      u.id = payload.driver_id ∧ u.role = UserRole.DRIVER ∧ u.is_active = true) with
  | none => (Except.error ⟨400, "Driver not found"⟩, db)
  | some driver =>
      let job' := { job with assigned_driver_id := some driver.id,
                             status := TowStatus.ASSIGNED }
      let ev : TowJobEvent :=
        { id := genId db.seed
          tow_job_id := job.id
          actor_user_id := user.id
          event_type := "ASSIGNED"
          message := some ("Assigned to driver " ++ driver.id) }
      (Except.ok job',
       { db with jobs := db.jobs.map (fun j => if j.id = job.id then job' else j),
                 events := db.events ++ [ev], seed := db.seed + 1 })

/-- `app/routers/tow_jobs.py`, `update_status` (POST /tow-jobs/{id}/status):
404 when the job is missing, then the shared access check, then the status
is overwritten with the payload's status (no transition validation), a
truthy note is appended to the job's notes prefixed with the actor's role,
and one STATUS_CHANGED event records `old -> new` plus the note. -/
def update_status (db : DB) (user : User) (job_id : String)
    (payload : TowJobStatusUpdate) : (Except HErr TowJob) × DB :=
  match findJob db.jobs job_id with
  | none => (Except.error ⟨404, "Tow job not found"⟩, db)
  | some job =>
  match _assert_job_access user job with
  | Except.error e => (Except.error e, db)
  | Except.ok () =>
      let old := job.status.value
      let job1 := { job with status := payload.status }
      let job2 :=
        if strTruthy payload.notes then
          let existing := pyStrip (job1.notes.getD "")
          let line := "[" ++ user.role.value ++ "] " ++ pyStrip (payload.notes.getD "")
          let merged := if existing ≠ "" then pyStrip (existing ++ "\n" ++ line) else line
          { job1 with notes := some merged }
        else job1
      let ev : TowJobEvent :=
        { id := genId db.seed
          tow_job_id := job.id
          actor_user_id := user.id
          event_type := "STATUS_CHANGED"
          message := some ("Status " ++ old ++ " -> " ++ payload.status.value ++
            (if strTruthy payload.notes then " | " ++ pyStrip (payload.notes.getD "") else "")) }
      (Except.ok job2,
       { db with jobs := db.jobs.map (fun j => if j.id = job.id then job2 else j),
                 events := db.events ++ [ev], seed := db.seed + 1 })

/-- `app/routers/tow_jobs.py`, `_parse_iso_datetime`: `None`/empty maps to
`None`; otherwise strip, rewrite a trailing `Z` to `+00:00`, and hand the
string to `datetime.fromisoformat` — an external library routine, passed
in here as `fromiso` (`none` = its `ValueError`), which the code turns
into a 400. -/
def _parse_iso_datetime (fromiso : String → Option String) (dt : Option String) :
    Except HErr (Option String) :=
  match dt with
  | none => Except.ok none
  | some d =>
      if d = "" then Except.ok none
      else
        let s := pyStrip d
        let s' := if s.endsWith "Z" then s.dropRight 1 ++ "+00:00" else s
        match fromiso s' with
        | some t => Except.ok (some t)
        | none => Except.error
            ⟨400, "captured_at must be ISO8601 datetime (e.g. 2026-01-19T12:34:56Z)"⟩

/-- Rendering of an `Optional[float]` inside an f-string (`None` or the
number; the numeral rendering of `Rat` stands in for CPython's float repr —
no theorem depends on the digits). -/
def pyOptStr (o : Option Rat) : String :=
  match o with
  | none => "None"
  | some q => toString q

/-- The form fields of POST /tow-jobs/{id}/photos. -/
structure PhotoUploadForm where
  photo : UploadFile
  photo_type : String
  lat : Option Rat
  lng : Option Rat
  accuracy_m : Option Rat
  captured_at : Option String
deriving DecidableEq, Repr

/-- The validation block of `upload_job_photo` (`app/routers/tow_jobs.py`
lines 201-215), in source order: photo_type whitelist, content-type
whitelist, geo pairing, lat range, lng range. -/
def upload_checks (form : PhotoUploadForm) : Except HErr Unit :=
  if form.photo_type ∉ ["BEFORE", "AFTER", "PLATE_CLOSEUP", "OTHER"] then
    Except.error ⟨400,
      "photo_type must be one of ['AFTER', 'BEFORE', 'OTHER', 'PLATE_CLOSEUP']"⟩
  else if form.photo.content_type ∉ ["image/jpeg", "image/png", "image/webp"] then
    Except.error ⟨400, "Only jpeg/png/webp images are allowed"⟩
  else if form.lat.isNone ≠ form.lng.isNone then
    Except.error ⟨400, "Provide both lat and lng, or neither"⟩
  else if geoRangeBad (-90) 90 form.lat then
    Except.error ⟨400, "lat must be between -90 and 90"⟩
  else if geoRangeBad (-180) 180 form.lng then
    Except.error ⟨400, "lng must be between -180 and 180"⟩
  else
    Except.ok ()

/-- `app/routers/tow_jobs.py`, `upload_job_photo`: 404 when the job is
missing, shared access check, the validation block (`upload_checks`),
capture-timestamp parse, streamed save, then the photo row plus one
PHOTO_UPLOADED event are committed. -/
def upload_job_photo (fromiso : String → Option String) (cfg : Settings)
    (st : SysState) (user : User) (job_id : String) (form : PhotoUploadForm) :
    (Except HErr TowJobPhoto) × SysState :=
  match findJob st.db.jobs job_id with
  | none => (Except.error ⟨404, "Tow job not found"⟩, st)
  | some job =>
  match _assert_job_access user job with
  | Except.error e => (Except.error e, st)
  | Except.ok () =>
  match upload_checks form with
  | Except.error e => (Except.error e, st)
  | Except.ok () =>
  match _parse_iso_datetime fromiso form.captured_at with
  | Except.error e => (Except.error e, st)
  | Except.ok captured_dt =>
  match save_upload_streaming cfg st.db.seed st.disk form.photo with
  | (Except.error e, disk') => (Except.error e, { st with disk := disk' })
  | (Except.ok (stored_path, size_bytes), disk') =>
      let rec' : TowJobPhoto :=
        { id := genId (st.db.seed + 1)
          tow_job_id := job.id
          uploaded_by_user_id := user.id
          photo_type := form.photo_type
          file_path := stored_path
          content_type := form.photo.content_type
          size_bytes := size_bytes
          lat := form.lat
          lng := form.lng
          accuracy_m := form.accuracy_m
          captured_at := captured_dt }
      let ev : TowJobEvent :=
        { id := genId (st.db.seed + 2)
          tow_job_id := job.id
          actor_user_id := user.id
          event_type := "PHOTO_UPLOADED"
          message := some (form.photo_type ++ " uploaded (" ++ toString size_bytes ++
            " bytes)" ++
            (if form.lat.isSome then
              " | photo_geo=" ++ pyOptStr form.lat ++ "," ++ pyOptStr form.lng ++
              " acc=" ++ pyOptStr form.accuracy_m
             else "")) }
      (Except.ok rec',
       { db := commitAdds st.db [] [rec'] [ev] 3, disk := disk' })

/-- The form fields of POST /tow-jobs/submit-evidence. -/
structure SubmitEvidenceForm where
  plate_number : String
  job_lat : Rat
  job_lng : Rat
  job_accuracy_m : Option Rat
  violation_type : Option String
  notes : Option String
  photo : UploadFile
  photo_type : String
  photo_lat : Option Rat
  photo_lng : Option Rat
  photo_accuracy_m : Option Rat
  captured_at : Option String
deriving DecidableEq, Repr

/-- The validation block of `submit_evidence` (`app/routers/tow_jobs.py`
lines 294-318), in source order: plate normalisation and non-emptiness,
job GPS ranges, photo GPS pairing and ranges, content-type whitelist,
photo_type whitelist. Returns the normalised plate. -/
def submit_checks (form : SubmitEvidenceForm) : Except HErr String :=
  let plate := pyUpper (pyStrip form.plate_number)
  if plate = "" then Except.error ⟨400, "plate_number is required"⟩
  else if ¬((-90 : Rat) ≤ form.job_lat ∧ form.job_lat ≤ 90) then
    Except.error ⟨400, "job_lat must be between -90 and 90"⟩
  else if ¬((-180 : Rat) ≤ form.job_lng ∧ form.job_lng ≤ 180) then
    Except.error ⟨400, "job_lng must be between -180 and 180"⟩
  else if form.photo_lat.isNone ≠ form.photo_lng.isNone then
    Except.error ⟨400, "Provide both photo_lat and photo_lng, or neither"⟩
  else if geoRangeBad (-90) 90 form.photo_lat then
    Except.error ⟨400, "photo_lat must be between -90 and 90"⟩
  else if geoRangeBad (-180) 180 form.photo_lng then
    Except.error ⟨400, "photo_lng must be between -180 and 180"⟩
  else if form.photo.content_type ∉ ["image/jpeg", "image/png", "image/webp"] then
    Except.error ⟨400, "Only jpeg/png/webp images are allowed"⟩
  else if form.photo_type ∉ ["BEFORE", "AFTER", "PLATE_CLOSEUP", "OTHER"] then
    Except.error ⟨400,
      "photo_type must be one of ['AFTER', 'BEFORE', 'OTHER', 'PLATE_CLOSEUP']"⟩
  else
    Except.ok plate

/-- `app/routers/tow_jobs.py`, `submit_evidence` (POST
/tow-jobs/submit-evidence): gated on OFFICER/ADMIN; runs the validation
block (`submit_checks`) and the capture-timestamp parse; then stages the
job and its CREATED event, streams the photo to storage (a failure here
aborts before commit, so nothing is committed), stages the photo row and
its PHOTO_UPLOADED event, and commits all four rows at once. -/
def submit_evidence (fromiso : String → Option String) (cfg : Settings)
    (st : SysState) (user : User) (form : SubmitEvidenceForm) :
    (Except HErr (TowJob × TowJobPhoto)) × SysState :=
  match require_roles [UserRole.OFFICER, UserRole.ADMIN] user with
  | Except.error e => (Except.error e, st)
  | Except.ok () =>
  match submit_checks form with
  | Except.error e => (Except.error e, st)
  | Except.ok plate =>
  match _parse_iso_datetime fromiso form.captured_at with
  | Except.error e => (Except.error e, st)
  | Except.ok captured_dt =>
      let job : TowJob :=
        { id := genId st.db.seed
          plate_number := plate
          officer_id := user.id
          status := TowStatus.NEW
          assigned_driver_id := none
          violation_type := form.violation_type
          notes := form.notes
          location_lat := form.job_lat
          location_lng := form.job_lng
          location_accuracy_m := form.job_accuracy_m }
      let ev1 : TowJobEvent :=
        { id := genId (st.db.seed + 1)
          tow_job_id := job.id
          actor_user_id := user.id
          event_type := "CREATED"
          message := some ("Job created via submit-evidence for plate " ++ plate) }
      match save_upload_streaming cfg (st.db.seed + 2) st.disk form.photo with
      | (Except.error e, disk') => (Except.error e, { st with disk := disk' })
      | (Except.ok (stored_path, size_bytes), disk') =>
          let rec' : TowJobPhoto :=
            { id := genId (st.db.seed + 3)
              tow_job_id := job.id
              uploaded_by_user_id := user.id
              photo_type := form.photo_type
              file_path := stored_path
              content_type := form.photo.content_type
              size_bytes := size_bytes
              lat := form.photo_lat
              lng := form.photo_lng
              accuracy_m := form.photo_accuracy_m
              captured_at := captured_dt }
          let ev2 : TowJobEvent :=
            { id := genId (st.db.seed + 4)
              tow_job_id := job.id
              actor_user_id := user.id
              event_type := "PHOTO_UPLOADED"
              message := some (form.photo_type ++ " uploaded via submit-evidence (" ++
                toString size_bytes ++ " bytes)" ++
                (if form.photo_lat.isSome then
                  " | photo_geo=" ++ pyOptStr form.photo_lat ++ "," ++
                  pyOptStr form.photo_lng ++ " acc=" ++ pyOptStr form.photo_accuracy_m
                 else "")) }
          (Except.ok (job, rec'),
           { db := commitAdds st.db [job] [rec'] [ev1, ev2] 5, disk := disk' })

/-! ## Path resolution for downloads (`os.path.abspath`) -/

/-- Join path segments with `/`. -/
def joinSegs (segs : List (List Nat)) : List Nat :=
  (segs.intersperse [slashCode]).flatten

/-- `os.path.normpath`'s segment pass: drop empty and `.` segments, let
`..` pop the last kept segment (or vanish at the root of an absolute
path). `stack` holds the kept segments in reverse. -/
def normStack (stack : List (List Nat)) : List (List Nat) → List (List Nat)
  | [] => stack.reverse
  | seg :: rest =>
      if seg = [] ∨ seg = [dotCode] then normStack stack rest
      else if seg = [dotCode, dotCode] then
        match stack with
        | [] => normStack [] rest
        | _ :: s => normStack s rest
      else normStack (seg :: stack) rest

/-- `os.path.abspath` for symlink-free POSIX paths: prefix the working
directory when the path is relative, then normalise. `cwd` is absolute. -/
def abspath (cwd : List Nat) (p : List Nat) : List Nat :=
  let q := match p with
           | [] => cwd
           | c :: _ => if c = slashCode then p else cwd ++ slashCode :: p
  slashCode :: joinSegs (normStack [] (q.splitOn slashCode))

/-- `app/routers/tow_jobs.py`, `download_job_photo`: 404 when the job is
missing, shared access check, 404 when the photo row is missing, then the
stored path must resolve strictly inside the uploads root ("Invalid file
path" otherwise), the file must exist on disk, and its absolute path is
served. -/
def download_job_photo (cwd : List Nat) (st : SysState) (user : User)
    (job_id photo_id : String) : Except HErr (List Nat) :=
  match findJob st.db.jobs job_id with
  | none => Except.error ⟨404, "Tow job not found"⟩
  | some job =>
  match _assert_job_access user job with
  | Except.error e => Except.error e
  | Except.ok () =>
  match st.db.photos.find? (fun p => p.id = photo_id ∧ p.tow_job_id = job.id) with
  | none => Except.error ⟨404, "Photo not found"⟩
  | some rec' =>
      let abs_path := abspath cwd rec'.file_path
      let uploads_abs := abspath cwd (str2codes "uploads")
      if ¬ (uploads_abs ++ [slashCode]).isPrefixOf abs_path then
        Except.error ⟨400, "Invalid file path"⟩
      else if (st.disk.find? (fun e => abspath cwd e.1 = abs_path)).isNone then
        Except.error ⟨404, "File missing on server"⟩
      else
        Except.ok abs_path

/-- `app/routers/tow_jobs.py`, `get_job_evidence`: 404 when the job is
missing, shared access check, then the job plus its photos. -/
def get_job_evidence (db : DB) (user : User) (job_id : String) :
    Except HErr (TowJob × List TowJobPhoto) :=
  match findJob db.jobs job_id with
  | none => Except.error ⟨404, "Tow job not found"⟩
  | some job =>
  match _assert_job_access user job with
  | Except.error e => Except.error e
  | Except.ok () =>
      Except.ok (job, db.photos.filter (fun p => p.tow_job_id = job.id))

/-- `app/routers/tow_jobs.py`, `get_job_events`: 404 when the job is
missing, shared access check, then the job's events ordered by creation
time ascending — which is the stored order (see the header). -/
def get_job_events (db : DB) (user : User) (job_id : String) :
    Except HErr (List TowJobEvent) :=
  match findJob db.jobs job_id with
  | none => Except.error ⟨404, "Tow job not found"⟩
  | some job =>
  match _assert_job_access user job with
  | Except.error e => Except.error e
  | Except.ok () =>
      Except.ok (db.events.filter (fun e => e.tow_job_id = job.id))

/-! ## Admin user management (`app/routers/admin.py`) -/

/-- `app/routers/admin.py`, `AdminUserUpdate` (pydantic length bounds on
name/phone are enforced upstream of the handler and not re-stated here). -/
structure AdminUserUpdate where
  name : Option String
  phone : Option String
  role : Option UserRole
  is_active : Option Bool
deriving DecidableEq, Repr

/-- `app/routers/admin.py`, `admin_update_user` (PATCH /admin/users/{id}):
ADMIN-gated; 404 when the target is missing; the self-lockout guard
rejects an admin changing their own role away from ADMIN or deactivating
themselves (400, before any field is touched); a blank phone is a 400 and
a phone held by another user a 409; the surviving updates are applied and
committed. -/
def admin_update_user (db : DB) (admin : User) (user_id : String)
    (payload : AdminUserUpdate) : (Except HErr User) × DB :=
  match require_roles [UserRole.ADMIN] admin with
  | Except.error e => (Except.error e, db)
  | Except.ok () =>
  match findUser db.users user_id with
  | none => (Except.error ⟨404, "User not found"⟩, db)
  | some user =>
  if user.id = admin.id ∧
     payload.role.any (fun r => decide (r ≠ UserRole.ADMIN)) = true then
    (Except.error ⟨400, "You cannot change your own role"⟩, db)
  else if user.id = admin.id ∧ payload.is_active = some false then
    (Except.error ⟨400, "You cannot deactivate your own account"⟩, db)
  else
    let applyRest := fun (u1 : User) =>
      let u2 := match payload.name with
                | some n => { u1 with name := pyStrip n }
                | none => u1
      let u3 := match payload.role with
                | some r => { u2 with role := r }
                | none => u2
      let u4 := match payload.is_active with
                | some b => { u3 with is_active := b }
                | none => u3
      (Except.ok u4,
       { db with users := db.users.map (fun u => if u.id = user.id then u4 else u) })
    match payload.phone with
    | none => applyRest user
    | some ph =>
        let new_phone := pyStrip ph
        if new_phone = "" then
          (Except.error ⟨400, "phone cannot be blank"⟩, db)
        else if (db.users.find? (fun u => u.phone = new_phone ∧ u.id ≠ user.id)).isSome then
          (Except.error ⟨409, "Another user already has this phone"⟩, db)
        else
          applyRest { user with phone := new_phone }

/-! ## Concrete fixtures used by counterexamples and witnesses -/

def uAdmin : User :=
  { id := "admin-1", name := "Amina", phone := "100000",
    role := UserRole.ADMIN, password_hash := "h", is_active := true }

def uOfficer : User :=
  { id := "off-1", name := "Omar", phone := "200000",
    role := UserRole.OFFICER, password_hash := "h", is_active := true }

def uDriver : User :=
  { id := "drv-1", name := "Dahir", phone := "300000",
    role := UserRole.DRIVER, password_hash := "h", is_active := true }

def jobClosed : TowJob :=
  { id := "job-1", plate_number := "ABC123", officer_id := "off-1",
    status := TowStatus.CLOSED, assigned_driver_id := some "drv-1",
    violation_type := none, notes := none,
    location_lat := 2, location_lng := 45, location_accuracy_m := none }

def dbClosed : DB :=
  { users := [uOfficer, uDriver], jobs := [jobClosed],
    photos := [], events := [], seed := 0 }

def dbEmpty : DB := { users := [], jobs := [], photos := [], events := [], seed := 0 }

/-! ## Helper lemmas -/

lemma upload_checks_ok_geo (form : PhotoUploadForm) (u : Unit)
    (h : upload_checks form = Except.ok u) :
    ¬(form.lat.isNone ≠ form.lng.isNone) ∧
    geoRangeBad (-90) 90 form.lat = false ∧
    geoRangeBad (-180) 180 form.lng = false := by
  unfold upload_checks at h
  split_ifs at h with h1 h2 h3 h4 h5
  all_goals simp_all

lemma submit_checks_ok_geo (form : SubmitEvidenceForm) (p : String)
    (h : submit_checks form = Except.ok p) :
    ((-90 : Rat) ≤ form.job_lat ∧ form.job_lat ≤ 90) ∧
    ((-180 : Rat) ≤ form.job_lng ∧ form.job_lng ≤ 180) ∧
    ¬(form.photo_lat.isNone ≠ form.photo_lng.isNone) ∧
    geoRangeBad (-90) 90 form.photo_lat = false ∧
    geoRangeBad (-180) 180 form.photo_lng = false := by
  unfold submit_checks at h
  dsimp only at h
  split_ifs at h with h1 h2 h3 h4 h5 h6 h7 h8
  all_goals simp_all

/-! ## Claim theorems -/

/-- C1. For every caller and every job, the job-access decision follows
the ordered rule table with first match winning: DISPATCHER or ADMIN is
allowed; OFFICER is allowed iff their id equals the job's officer_id;
DRIVER is allowed iff their id equals the job's assigned_driver_id; every
other combination is denied with a Forbidden (403) error. -/
theorem c1_job_access_rule_table (u : User) (j : TowJob) :
    (_assert_job_access u j = Except.ok () ↔
      ((u.role = UserRole.DISPATCHER ∨ u.role = UserRole.ADMIN) ∨
       (u.role = UserRole.OFFICER ∧ j.officer_id = u.id) ∨
       (u.role = UserRole.DRIVER ∧ j.assigned_driver_id = some u.id)))
  ∧ (_assert_job_access u j = Except.error ⟨403, "Not your job"⟩ ↔
      ¬ ((u.role = UserRole.DISPATCHER ∨ u.role = UserRole.ADMIN) ∨
         (u.role = UserRole.OFFICER ∧ j.officer_id = u.id) ∨
         (u.role = UserRole.DRIVER ∧ j.assigned_driver_id = some u.id))) := by
  unfold _assert_job_access
  split_ifs with h1 h2 h3 <;> simp_all

/-- C2 counterexample. The claim "once a job reaches a terminal state it
never leaves it" is false at a concrete input: an authorized OFFICER's
UpdateStatus on a CLOSED job succeeds and moves its status to NEW. -/
theorem c2_terminal_counterexample :
    jobClosed.status = TowStatus.CLOSED ∧
    (update_status dbClosed uOfficer "job-1" ⟨TowStatus.NEW, none⟩).1 =
      Except.ok { jobClosed with status := TowStatus.NEW } ∧
    findJob ((update_status dbClosed uOfficer "job-1" ⟨TowStatus.NEW, none⟩).2).jobs
        "job-1" = some { jobClosed with status := TowStatus.NEW } := by
  decide

/-- C2 (amended). The code enforces no terminality: every successful
UpdateStatus sets the job's status to exactly the requested value
regardless of the prior status (CLOSED and CANCELLED included), and every
successful AssignDriver forces the status to ASSIGNED, also from terminal
states. -/
theorem c2_no_terminal_enforcement (db : DB) (u : User) (jid : String)
    (p : TowJobStatusUpdate) (a : TowJobAssign) (j : TowJob) :
    ((update_status db u jid p).1 = Except.ok j → j.status = p.status)
  ∧ ((assign_driver db u jid a).1 = Except.ok j → j.status = TowStatus.ASSIGNED) := by
  constructor
  · intro h
    unfold update_status at h
    split at h
    · simp at h
    · split at h
      · simp at h
      · simp only [strTruthy] at h
        split at h <;> simp_all <;> subst h <;> rfl
  · intro h
    unfold assign_driver at h
    split at h
    · simp at h
    · split at h
      · simp at h
      · split at h
        · simp at h
        · simp at h
          subst h
          rfl

/-- C2 witness for the amended theorem: the CLOSED job moved to NEW. -/
theorem c2_no_terminal_enforcement_witness :
    (update_status dbClosed uOfficer "job-1" ⟨TowStatus.NEW, none⟩).1 =
      Except.ok { jobClosed with status := TowStatus.NEW } ∧
    ({ jobClosed with status := TowStatus.NEW } : TowJob).status = TowStatus.NEW :=
  ⟨by decide,
   (c2_no_terminal_enforcement dbClosed uOfficer "job-1" ⟨TowStatus.NEW, none⟩
      ⟨"drv-1"⟩ { jobClosed with status := TowStatus.NEW }).1 (by decide)⟩

/-- The job that POST /tow-jobs commits for plate "ABC123" at lat 100. -/
def jobLat100 : TowJob :=
  { id := "uuid-0", plate_number := "ABC123", officer_id := "off-1",
    status := TowStatus.NEW, assigned_driver_id := none,
    violation_type := none, notes := none,
    location_lat := 100, location_lng := 0, location_accuracy_m := none }

/-- C3 counterexample. The claim "every operation that accepts a location
rejects out-of-range lat before any mutation" is false for job creation:
the request body with lat = 100 passes `TowJobCreate` validation (which
requires the fields but bounds nothing) and `create_tow_job` commits a job
with that latitude. -/
theorem c3_geo_counterexample :
    TowJobCreate.validate ⟨some "ABC123", some 100, some 0, none, none, none⟩ =
      Except.ok ⟨"ABC123", 100, 0, none, none, none⟩ ∧
    ((100 : Rat) < -90 ∨ (90 : Rat) < 100) ∧
    (create_tow_job dbEmpty uOfficer ⟨"ABC123", 100, 0, none, none, none⟩).1 =
      Except.ok jobLat100 ∧
    (create_tow_job dbEmpty uOfficer ⟨"ABC123", 100, 0, none, none, none⟩).2.jobs =
      [jobLat100] := by
  decide

/-- C3 (amended). Photo upload and submit-evidence reject a location with
lat outside [-90, 90], lng outside [-180, 180], or exactly one of the pair
supplied: the request errors and mutates nothing. Plain job creation
requires both coordinates (supplying only one fails validation) but
applies no range check — out-of-range job coordinates are accepted there
(see the counterexample). -/
theorem c3_geo_validation_amended (fromiso : String → Option String)
    (cfg : Settings) (st : SysState) (u : User) (jid : String)
    (form : PhotoUploadForm) (sform : SubmitEvidenceForm)
    (raw : RawTowJobCreate) :
    ((form.lat.isNone ≠ form.lng.isNone ∨
      geoRangeBad (-90) 90 form.lat = true ∨
      geoRangeBad (-180) 180 form.lng = true) →
      (errStatus (upload_job_photo fromiso cfg st u jid form).1).isSome = true ∧
      (upload_job_photo fromiso cfg st u jid form).2 = st)
  ∧ ((sform.photo_lat.isNone ≠ sform.photo_lng.isNone ∨
      geoRangeBad (-90) 90 sform.photo_lat = true ∨
      geoRangeBad (-180) 180 sform.photo_lng = true ∨
      ¬((-90 : Rat) ≤ sform.job_lat ∧ sform.job_lat ≤ 90) ∨
      ¬((-180 : Rat) ≤ sform.job_lng ∧ sform.job_lng ≤ 180)) →
      (errStatus (submit_evidence fromiso cfg st u sform).1).isSome = true ∧
      (submit_evidence fromiso cfg st u sform).2 = st)
  ∧ ((raw.location_lat = none ∨ raw.location_lng = none) →
      (errStatus (TowJobCreate.validate raw)).isSome = true) := by
  refine ⟨?_, ?_, ?_⟩
  · intro h
    unfold upload_job_photo
    split
    · exact ⟨rfl, rfl⟩
    · split
      · exact ⟨rfl, rfl⟩
      · rcases hchk : upload_checks form with e | v
        · exact ⟨rfl, rfl⟩
        · have hg := upload_checks_ok_geo form v hchk
          exfalso
          rcases h with hA | hB | hC
          · exact hg.1 hA
          · simp [hg.2.1] at hB
          · simp [hg.2.2] at hC
  · intro h
    unfold submit_evidence
    split
    · exact ⟨rfl, rfl⟩
    · rcases hchk : submit_checks sform with e | p
      · exact ⟨rfl, rfl⟩
      · have hg := submit_checks_ok_geo sform p hchk
        exfalso
        rcases h with hA | hB | hC | hD | hE
        · exact hg.2.2.1 hA
        · simp [hg.2.2.2.1] at hB
        · simp [hg.2.2.2.2] at hC
        · exact hD hg.1
        · exact hE hg.2.1
  · intro h
    unfold TowJobCreate.validate
    rcases h with h | h <;> rw [h] <;> cases raw.plate_number <;>
      cases raw.location_lat <;> cases raw.location_lng <;> simp [errStatus]

/-- An empty system state (fresh database, empty uploads directory). -/
def stEmpty : SysState := { db := dbEmpty, disk := [] }

/-- A 1-byte jpeg upload with no client filename. -/
def photoTiny : UploadFile := { filename := none, content_type := "image/jpeg", content := [7] }

/-- A photo-upload form carrying an out-of-range latitude. -/
def formBadLat : PhotoUploadForm :=
  { photo := { filename := none, content_type := "image/jpeg", content := [] },
    photo_type := "AFTER", lat := some 100, lng := some 0,
    accuracy_m := none, captured_at := none }

/-- A submit-evidence form that passes every validation check. -/
def sformOk : SubmitEvidenceForm :=
  { plate_number := "AB", job_lat := 0, job_lng := 0, job_accuracy_m := none,
    violation_type := none, notes := none, photo := photoTiny,
    photo_type := "AFTER", photo_lat := none, photo_lng := none,
    photo_accuracy_m := none, captured_at := none }

/-- C3 witness: a photo upload with lat = 100 errors and leaves the state
untouched. -/
theorem c3_geo_validation_amended_witness :
    geoRangeBad (-90) 90 (some 100) = true ∧
    (errStatus (upload_job_photo (fun _ => none) ⟨8⟩ stEmpty uOfficer "job-1"
        formBadLat).1).isSome = true ∧
    (upload_job_photo (fun _ => none) ⟨8⟩ stEmpty uOfficer "job-1" formBadLat).2 =
      stEmpty :=
  ⟨by decide,
   (c3_geo_validation_amended (fun _ => none) ⟨8⟩ stEmpty uOfficer "job-1"
      formBadLat sformOk ⟨none, none, none, none, none, none⟩).1
     (Or.inr (Or.inl (by decide)))⟩

/-- C4 (spec-modelled session semantics). SubmitEvidence is atomic: on any
failure — validation, size limit or a storage abort — the committed
database is exactly what it was before the request; on success the job
row, the photo row and their two audit events (CREATED and
PHOTO_UPLOADED) land in one commit. -/
theorem c4_submit_evidence_atomic (fromiso : String → Option String)
    (cfg : Settings) (st : SysState) (u : User) (form : SubmitEvidenceForm) :
    (∀ e st', submit_evidence fromiso cfg st u form = (Except.error e, st') →
      st'.db = st.db)
  ∧ (∀ j ph st', submit_evidence fromiso cfg st u form = (Except.ok (j, ph), st') →
      st'.db.jobs = st.db.jobs ++ [j] ∧
      st'.db.photos = st.db.photos ++ [ph] ∧
      ∃ e1 e2, st'.db.events = st.db.events ++ [e1, e2] ∧
        e1.event_type = "CREATED" ∧ e2.event_type = "PHOTO_UPLOADED" ∧
        e1.tow_job_id = j.id ∧ e2.tow_job_id = j.id) := by
  constructor
  · intro e st' hE
    unfold submit_evidence at hE
    split at hE
    · injection hE with h1 h2
      rw [← h2]
    · split at hE
      · injection hE with h1 h2
        rw [← h2]
      · split at hE
        · injection hE with h1 h2
          rw [← h2]
        · dsimp only at hE
          split at hE
          · injection hE with h1 h2
            rw [← h2]
          · injection hE with h1 h2
            exact Except.noConfusion h1
  · intro j ph st' hO
    unfold submit_evidence at hO
    split at hO
    · injection hO with h1 h2
      exact Except.noConfusion h1
    · split at hO
      · injection hO with h1 h2
        exact Except.noConfusion h1
      · split at hO
        · injection hO with h1 h2
          exact Except.noConfusion h1
        · dsimp only at hO
          split at hO
          · injection hO with h1 h2
            exact Except.noConfusion h1
          · injection hO with h1 h2
            injection h1 with h3
            injection h3 with hj hp
            subst hj
            subst hp
            rw [← h2]
            exact ⟨rfl, rfl, _, _, rfl, rfl, rfl, rfl, rfl⟩

/-- C4 witness: an oversized photo (1 byte against a 0MB ceiling) aborts
submit-evidence after the job row was staged, and the committed database
is untouched. -/
theorem c4_submit_evidence_atomic_witness :
    submit_evidence (fun _ => none) ⟨0⟩ stEmpty uOfficer sformOk =
      (Except.error ⟨413, "File too large. Max is 0MB."⟩, stEmpty) ∧
    stEmpty.db = stEmpty.db :=
  ⟨by decide,
   (c4_submit_evidence_atomic (fun _ => none) ⟨0⟩ stEmpty uOfficer sformOk).1
     ⟨413, "File too large. Max is 0MB."⟩ stEmpty (by decide)⟩

/-- C5. Every successful UpdateStatus appends exactly one STATUS_CHANGED
audit event, whose message encodes the prior status value, the new status
value, and the supplied note when one is present. -/
theorem c5_update_status_audit (db : DB) (u : User) (jid : String)
    (p : TowJobStatusUpdate) (j job0 : TowJob)
    (hfind : findJob db.jobs jid = some job0)
    (hok : (update_status db u jid p).1 = Except.ok j) :
    (update_status db u jid p).2.events = db.events ++
      [{ id := genId db.seed, tow_job_id := job0.id, actor_user_id := u.id,
         event_type := "STATUS_CHANGED",
         message := some ("Status " ++ job0.status.value ++ " -> " ++ p.status.value ++
           (if strTruthy p.notes then " | " ++ pyStrip (p.notes.getD "") else "")) }] := by
  unfold update_status at hok ⊢
  rw [hfind] at hok ⊢
  dsimp only at hok ⊢
  rcases hacc : _assert_job_access u job0 with e | v
  · rw [hacc] at hok
    simp at hok
  · rfl

/-- The job row the C5 witness's update produces. -/
def jobEnRoute : TowJob :=
  { jobClosed with status := TowStatus.EN_ROUTE,
                   notes := some "[DRIVER] heading to lot" }

/-- C5 witness: the driver moves the closed job's status with a note and
exactly the expected STATUS_CHANGED event is appended. -/
theorem c5_update_status_audit_witness :
    findJob dbClosed.jobs "job-1" = some jobClosed ∧
    (update_status dbClosed uDriver "job-1" ⟨TowStatus.EN_ROUTE, some "heading to lot"⟩).2.events =
      dbClosed.events ++
      [{ id := genId dbClosed.seed, tow_job_id := jobClosed.id, actor_user_id := uDriver.id,
         event_type := "STATUS_CHANGED",
         message := some ("Status " ++ jobClosed.status.value ++ " -> " ++
           (TowStatus.EN_ROUTE).value ++
           (if strTruthy (some "heading to lot") then
             " | " ++ pyStrip ((some "heading to lot").getD "") else "")) }] :=
  ⟨by decide,
   c5_update_status_audit dbClosed uDriver "job-1" ⟨TowStatus.EN_ROUTE, some "heading to lot"⟩
     jobEnRoute jobClosed (by decide) (by decide)⟩

lemma find?_filter_ne (d : Disk) (p : List Nat) :
    (d.filter (fun e => e.1 ≠ p)).find? (fun e => e.1 = p) = none := by
  induction d with
  | nil => rfl
  | cons e es ih => by_cases he : e.1 = p <;> simp_all [List.filter_cons]

lemma getFile_putFile (d : Disk) (p c : List Nat) :
    getFile (putFile d p c) p = some c := by
  unfold getFile putFile
  rw [List.find?_append, find?_filter_ne]
  simp

lemma getFile_removeFile (d : Disk) (p : List Nat) :
    getFile (removeFile d p) p = none := by
  unfold getFile removeFile
  rw [find?_filter_ne]
  rfl

/-- The write loop consumes the whole chunked stream iff its total length
stays within the ceiling; it accumulates exactly the stream's bytes. -/
lemma writeChunks_chunks (cfg : Settings) :
    ∀ (fuel : Nat) (l : List Nat) (w : Nat) (acc : List Nat),
      l.length ≤ fuel → w ≤ cfg.MAX_UPLOAD_MB * 1024 * 1024 →
      writeChunks cfg (splitChunksFuel fuel l) w acc =
        (if w + l.length ≤ cfg.MAX_UPLOAD_MB * 1024 * 1024 then
          Except.ok (acc ++ l, w + l.length)
        else
          Except.error ⟨413,
            "File too large. Max is " ++ toString cfg.MAX_UPLOAD_MB ++ "MB."⟩) := by
  intro fuel
  induction fuel with
  | zero =>
    intro l w acc hl hw
    have hnil : l = [] := List.eq_nil_of_length_eq_zero (Nat.le_zero.mp hl)
    subst hnil
    simp [splitChunksFuel, writeChunks, hw]
  | succ fuel ih =>
    intro l w acc hl hw
    cases l with
    | nil => simp [splitChunksFuel, writeChunks, hw]
    | cons a as =>
      have htk : ((a :: as).take chunkSize).length = min chunkSize (a :: as).length :=
        List.length_take chunkSize (a :: as)
      have hdr : ((a :: as).drop chunkSize).length = (a :: as).length - chunkSize :=
        List.length_drop chunkSize (a :: as)
      have hcs : 0 < chunkSize := by norm_num [chunkSize]
      rw [splitChunksFuel, writeChunks]
      by_cases hbig :
          w + ((a :: as).take chunkSize).length > cfg.MAX_UPLOAD_MB * 1024 * 1024
      · rw [if_pos hbig, if_neg (by omega)]
      · rw [if_neg hbig]
        have hlcons : (a :: as).length = as.length + 1 := List.length_cons a as
        rw [ih ((a :: as).drop chunkSize) (w + ((a :: as).take chunkSize).length)
          (acc ++ (a :: as).take chunkSize) (by omega) (by omega)]
        have he : w + ((a :: as).take chunkSize).length +
            ((a :: as).drop chunkSize).length = w + (a :: as).length := by omega
        rw [he, List.append_assoc, List.take_append_drop]

lemma digitChar_toNat_ne : ∀ (n : Nat), Char.toNat (Nat.digitChar n) ≠ 47
  | 0 => by decide
  | 1 => by decide
  | 2 => by decide
  | 3 => by decide
  | 4 => by decide
  | 5 => by decide
  | 6 => by decide
  | 7 => by decide
  | 8 => by decide
  | 9 => by decide
  | 10 => by decide
  | 11 => by decide
  | 12 => by decide
  | 13 => by decide
  | 14 => by decide
  | 15 => by decide
  | (_ + 16) => show Char.toNat '*' ≠ 47 by decide

lemma toDigitsCore_toNat_ne (b : Nat) :
    ∀ (fuel n : Nat) (acc : List Char), (∀ c ∈ acc, Char.toNat c ≠ 47) →
      ∀ c ∈ Nat.toDigitsCore b fuel n acc, Char.toNat c ≠ 47 := by
  intro fuel
  induction fuel with
  | zero =>
    intro n acc hacc c hc
    simp only [Nat.toDigitsCore] at hc
    exact hacc c hc
  | succ fuel ih =>
    intro n acc hacc c hc
    simp only [Nat.toDigitsCore] at hc
    split at hc
    · rw [List.mem_cons] at hc
      rcases hc with hc | hc
      · exact hc ▸ digitChar_toNat_ne _
      · exact hacc c hc
    · refine ih _ _ ?_ c hc
      intro x hx
      rw [List.mem_cons] at hx
      rcases hx with hx | hx
      · exact hx ▸ digitChar_toNat_ne _
      · exact hacc x hx

/-- The generated uuid part of a stored name never contains a path
separator (its characters are "uuid-" and decimal digits). -/
lemma genId_no_slash (n : Nat) : slashCode ∉ str2codes (genId n) := by
  intro hmem
  unfold str2codes genId slashCode at hmem
  rw [List.mem_map] at hmem
  rcases hmem with ⟨c, hc, htn⟩
  rw [String.toList, String.data_append, List.mem_append] at hc
  rcases hc with h1 | h2
  · have hlit : ("uuid-" : String).data = ['u', 'u', 'i', 'd', '-'] := rfl
    rw [hlit] at h1
    simp only [List.mem_cons, List.not_mem_nil, or_false] at h1
    rcases h1 with h | h | h | h | h <;> subst h <;> exact absurd htn (by decide)
  · have hrepr : (Nat.repr n).data = Nat.toDigitsCore 10 (n + 1) n [] := rfl
    rw [hrepr] at h2
    exact toDigitsCore_toNat_ne 10 (n + 1) n [] (by simp) c h2 htn

/-- C6 counterexample. The claim quantifies over every upload, but a
client filename whose guessed extension contains a separator makes the
code's `open()` fail before a single byte is read: at exactly the
configured maximum (0MB ceiling, empty file) nothing is stored — the
request fails with the 500 storage error rather than succeeding, and one
byte over the ceiling fails 500 as well, not 413. -/
theorem c6_ceiling_counterexample :
    ([] : List Nat).length = 0 * 1024 * 1024 ∧
    save_upload_streaming ⟨0⟩ 0 [] ⟨some (str2codes "a.b/c"), "image/jpeg", []⟩ =
      (Except.error ⟨500, "Upload failed"⟩, []) ∧
    ([7] : List Nat).length = 0 * 1024 * 1024 + 1 ∧
    save_upload_streaming ⟨0⟩ 0 [] ⟨some (str2codes "a.b/c"), "image/jpeg", [7]⟩ =
      (Except.error ⟨500, "Upload failed"⟩, []) := by
  decide

/-- C6 (amended). For every upload whose guessed extension is free of path
separators — whenever the destination directory exists, so the `open()`
succeeds — a file of exactly MAX_UPLOAD_MB megabytes is stored
successfully (its full contents land under the generated path) and one
byte more fails with PayloadTooLarge (413) leaving no file on disk. An
upload whose guessed extension contains a separator instead fails with
the 500 storage error regardless of size (see the counterexample). -/
theorem c6_upload_ceiling (cfg : Settings) (seed : Nat) (disk : Disk)
    (f : UploadFile) (hext : slashCode ∉ _guess_ext f.filename) :
    (f.content.length = cfg.MAX_UPLOAD_MB * 1024 * 1024 →
      (save_upload_streaming cfg seed disk f).1 =
        Except.ok (str2codes "uploads/" ++ (str2codes (genId seed) ++
          _guess_ext f.filename), f.content.length) ∧
      getFile (save_upload_streaming cfg seed disk f).2
        (str2codes "uploads/" ++ (str2codes (genId seed) ++ _guess_ext f.filename)) =
        some f.content)
  ∧ (f.content.length = cfg.MAX_UPLOAD_MB * 1024 * 1024 + 1 →
      (save_upload_streaming cfg seed disk f).1 =
        Except.error ⟨413,
          "File too large. Max is " ++ toString cfg.MAX_UPLOAD_MB ++ "MB."⟩ ∧
      getFile (save_upload_streaming cfg seed disk f).2
        (str2codes "uploads/" ++ (str2codes (genId seed) ++ _guess_ext f.filename)) =
        none) := by
  have hs : slashCode ∉ str2codes (genId seed) ++ _guess_ext f.filename := by
    intro h
    rcases List.mem_append.mp h with h | h
    · exact genId_no_slash seed h
    · exact hext h
  have key := writeChunks_chunks cfg f.content.length f.content 0 []
    (le_refl _) (Nat.zero_le _)
  constructor
  · intro h1
    unfold save_upload_streaming splitChunks
    dsimp only
    rw [if_neg hs, key, if_pos (by omega)]
    refine ⟨by simp, ?_⟩
    simpa using getFile_putFile disk _ ([] ++ f.content)
  · intro h2
    unfold save_upload_streaming splitChunks
    dsimp only
    rw [if_neg hs, key, if_neg (by omega)]
    exact ⟨rfl, getFile_removeFile disk _⟩

/-- C6 witness: with the ceiling configured at 0MB, an empty upload is
stored and a 1-byte upload fails 413 leaving no file behind. -/
theorem c6_upload_ceiling_witness :
    (save_upload_streaming ⟨0⟩ 0 [] ⟨none, "image/jpeg", []⟩).1 =
      Except.ok (str2codes "uploads/" ++ (str2codes (genId 0) ++ _guess_ext none), 0) ∧
    (save_upload_streaming ⟨0⟩ 0 [] photoTiny).1 =
      Except.error ⟨413, "File too large. Max is 0MB."⟩ ∧
    getFile (save_upload_streaming ⟨0⟩ 0 [] photoTiny).2
      (str2codes "uploads/" ++ (str2codes (genId 0) ++ _guess_ext none)) = none :=
  ⟨((c6_upload_ceiling ⟨0⟩ 0 [] ⟨none, "image/jpeg", []⟩ (by decide)).1 (by decide)).1,
   ((c6_upload_ceiling ⟨0⟩ 0 [] photoTiny (by decide)).2 (by decide)).1,
   ((c6_upload_ceiling ⟨0⟩ 0 [] photoTiny (by decide)).2 (by decide)).2⟩

/-- C7 counterexample. The claim "no client-supplied filename content is
trusted for path construction" is false: the extension guessed from the
client filename is spliced into the stored path verbatim. Two uploads
identical but for their client filename are stored under different paths,
and the client-chosen suffix ".jpg" appears inside the stored path. -/
theorem c7_path_counterexample :
    (save_upload_streaming ⟨8⟩ 0 [] ⟨some (str2codes "x.jpg"), "image/jpeg", [1]⟩).1 =
      Except.ok (str2codes "uploads/uuid-0.jpg", 1) ∧
    (save_upload_streaming ⟨8⟩ 0 [] ⟨some (str2codes "x.png"), "image/png", [1]⟩).1 =
      Except.ok (str2codes "uploads/uuid-0.png", 1) ∧
    str2codes "uploads/uuid-0.jpg" ≠ str2codes "uploads/uuid-0.png" ∧
    (str2codes ".jpg").isSuffixOf (str2codes "uploads/uuid-0.jpg") = true := by
  decide

lemma lowerCode_slash (c : Nat) (h : lowerCode c = slashCode) : c = slashCode := by
  unfold lowerCode at h
  unfold slashCode at h ⊢
  split_ifs at h <;> omega

lemma mem_afterLastDot (c : Nat) (l : List Nat) (h : c ∈ afterLastDot l) : c ∈ l := by
  unfold afterLastDot at h
  rw [List.mem_reverse] at h
  have hsub := (List.takeWhile_prefix (fun x => x ≠ dotCode)).subset h
  exact List.mem_reverse.mp hsub

/-- C7 (amended). Every stored path is the fixed upload root joined with a
freshly generated name plus the lowercased extension taken from the client
filename: the root and the generated base are not client-controlled, but
the extension is client filename content trusted into the path without
sanitisation (see the counterexample). When the client filename is
separator-free the extension is too, so the stored path gains no
client-controlled path component; a filename whose guessed extension does
contain a separator never produces a stored path at all — the file write
fails with the 500 storage error and the filesystem is untouched. -/
theorem c7_path_structure_amended (cfg : Settings) (seed : Nat) (disk : Disk)
    (f : UploadFile) :
    (∀ p n d, save_upload_streaming cfg seed disk f = (Except.ok (p, n), d) →
      p = str2codes "uploads/" ++ (str2codes (genId seed) ++ _guess_ext f.filename))
  ∧ (∀ fn, f.filename = some fn → slashCode ∉ fn →
      slashCode ∉ _guess_ext f.filename)
  ∧ (slashCode ∈ _guess_ext f.filename →
      save_upload_streaming cfg seed disk f =
        (Except.error ⟨500, "Upload failed"⟩, disk)) := by
  refine ⟨?_, ?_, ?_⟩
  · intro p n d hEq
    unfold save_upload_streaming at hEq
    dsimp only at hEq
    split at hEq
    · injection hEq with h1 h2
      exact Except.noConfusion h1
    · split at hEq
      · injection hEq with h1 h2
        injection h1 with h3
        injection h3 with hp hn
        exact hp.symm
      · injection hEq with h1 h2
        exact Except.noConfusion h1
  · intro fn hfn hslash
    rw [hfn]
    unfold _guess_ext
    dsimp only
    split_ifs with hc
    · simp
    · intro hmem
      rcases List.mem_cons.mp hmem with hd | hm
      · exact absurd hd (by decide)
      · rcases List.mem_map.mp hm with ⟨x, hx, hlx⟩
        exact hslash (lowerCode_slash x hlx ▸ mem_afterLastDot x fn hx)
  · intro hslash
    unfold save_upload_streaming
    dsimp only
    rw [if_pos (List.mem_append.mpr (Or.inr hslash))]

/-- C7 witness for the amended theorem: a stored path follows the
root-uuid-extension structure, a separator-free filename yields a
separator-free extension, and a separator-bearing extension makes the
write fail 500 with the filesystem untouched. -/
theorem c7_path_structure_amended_witness :
    str2codes "uploads/uuid-0.jpg" =
      str2codes "uploads/" ++ (str2codes (genId 0) ++
        _guess_ext (some (str2codes "photo.JPG"))) ∧
    slashCode ∉ _guess_ext (some (str2codes "photo.JPG")) ∧
    save_upload_streaming ⟨8⟩ 0 [] ⟨some (str2codes "a.b/c"), "image/jpeg", [1]⟩ =
      (Except.error ⟨500, "Upload failed"⟩, []) :=
  ⟨(c7_path_structure_amended ⟨8⟩ 0 []
      ⟨some (str2codes "photo.JPG"), "image/jpeg", [1]⟩).1
      (str2codes "uploads/uuid-0.jpg") 1
      [(str2codes "uploads/uuid-0.jpg", [1])] (by decide),
   (c7_path_structure_amended ⟨8⟩ 0 []
      ⟨some (str2codes "photo.JPG"), "image/jpeg", [1]⟩).2.1
      (str2codes "photo.JPG") rfl (by decide),
   (c7_path_structure_amended ⟨8⟩ 0 []
      ⟨some (str2codes "a.b/c"), "image/jpeg", [1]⟩).2.2 (by decide)⟩

/-- C8. An admin updating their own record cannot deactivate themselves or
change their own role away from ADMIN: the request fails with a 400
validation error and the committed store is unchanged. -/
theorem c8_admin_self_lockout (db : DB) (admin : User) (payload : AdminUserUpdate)
    (target : User)
    (hrole : admin.role = UserRole.ADMIN)
    (hfind : findUser db.users admin.id = some target)
    (hbad : (∃ r, payload.role = some r ∧ r ≠ UserRole.ADMIN) ∨
            payload.is_active = some false) :
    errStatus (admin_update_user db admin admin.id payload).1 = some 400 ∧
    (admin_update_user db admin admin.id payload).2 = db := by
  have hrr : require_roles [UserRole.ADMIN] admin = Except.ok () := by
    unfold require_roles
    rw [hrole]
    simp
  have hid : target.id = admin.id := by
    unfold findUser at hfind
    simpa using List.find?_some hfind
  unfold admin_update_user
  rw [hrr, hfind]
  dsimp only
  split_ifs with h1 h2
  · exact ⟨rfl, rfl⟩
  · exact ⟨rfl, rfl⟩
  · exfalso
    rcases hbad with ⟨r, hr, hrne⟩ | hact
    · exact h1 ⟨hid, by rw [hr]; simpa using hrne⟩
    · exact h2 ⟨hid, hact⟩

/-- The single-admin database used by the C8 witness. -/
def dbAdmin : DB := { users := [uAdmin], jobs := [], photos := [], events := [], seed := 0 }

/-- C8 witness: the admin demoting themselves to DRIVER is rejected with a
400 and the store is untouched. -/
theorem c8_admin_self_lockout_witness :
    errStatus (admin_update_user dbAdmin uAdmin "admin-1"
      ⟨none, none, some UserRole.DRIVER, none⟩).1 = some 400 ∧
    (admin_update_user dbAdmin uAdmin "admin-1"
      ⟨none, none, some UserRole.DRIVER, none⟩).2 = dbAdmin :=
  c8_admin_self_lockout dbAdmin uAdmin ⟨none, none, some UserRole.DRIVER, none⟩
    uAdmin rfl (by decide) (Or.inl ⟨UserRole.DRIVER, rfl, by decide⟩)

lemma update_preserves_key (jobs : List TowJob) (job job' : TowJob)
    (hmem : job ∈ jobs) (hnd : (jobs.map TowJob.id).Nodup)
    (hid : job'.id = job.id) (hoff : job'.officer_id = job.officer_id) :
    (jobs.map (fun j => if j.id = job.id then job' else j)).map
      (fun j => (j.id, j.officer_id)) =
    jobs.map (fun j => (j.id, j.officer_id)) := by
  rw [List.map_map]
  apply List.map_congr_left
  intro j hj
  by_cases hje : j.id = job.id
  · have hjj : j = job := List.inj_on_of_nodup_map hnd hj hmem hje
    subst hjj
    simp [Function.comp, hje, hid, hoff]
  · simp [Function.comp, hje]

/-- C9. A job's officer_id (its immutable owner, set at creation) survives
every operation: AssignDriver, UpdateStatus and UploadPhoto leave each
stored job's (id, officer_id) pair exactly as it was, whether they succeed
or fail. The primary-key hypothesis (distinct job ids) mirrors the
relational store's constraint. -/
theorem c9_officer_id_immutable (db : DB) (u : User) (jid : String)
    (a : TowJobAssign) (p : TowJobStatusUpdate) (fromiso : String → Option String)
    (cfg : Settings) (st : SysState) (form : PhotoUploadForm)
    (hnd : (db.jobs.map TowJob.id).Nodup) :
    ((assign_driver db u jid a).2.jobs.map (fun j => (j.id, j.officer_id)) =
      db.jobs.map (fun j => (j.id, j.officer_id)))
  ∧ ((update_status db u jid p).2.jobs.map (fun j => (j.id, j.officer_id)) =
      db.jobs.map (fun j => (j.id, j.officer_id)))
  ∧ ((upload_job_photo fromiso cfg st u jid form).2.db.jobs.map
        (fun j => (j.id, j.officer_id)) =
      st.db.jobs.map (fun j => (j.id, j.officer_id))) := by
  refine ⟨?_, ?_, ?_⟩
  · unfold assign_driver
    rcases hrr : require_roles [UserRole.DISPATCHER, UserRole.ADMIN] u with e | v
    · rfl
    · dsimp only
      rcases hfind : findJob db.jobs jid with _ | job
      · rfl
      · dsimp only
        split
        · rfl
        · dsimp only
          exact update_preserves_key db.jobs job _
            (List.mem_of_find?_eq_some hfind) hnd rfl rfl
  · unfold update_status
    rcases hfind : findJob db.jobs jid with _ | job
    · rfl
    · dsimp only
      rcases hacc : _assert_job_access u job with e | v
      · rfl
      · dsimp only
        apply update_preserves_key db.jobs job _
          (List.mem_of_find?_eq_some hfind) hnd
        · split_ifs <;> rfl
        · split_ifs <;> rfl
  · unfold upload_job_photo
    rcases hfind : findJob st.db.jobs jid with _ | job
    · rfl
    · dsimp only
      rcases hacc : _assert_job_access u job with e | v
      · rfl
      · dsimp only
        rcases hchk : upload_checks form with e | v2
        · rfl
        · dsimp only
          rcases hpar : _parse_iso_datetime fromiso form.captured_at with e | cdt
          · rfl
          · dsimp only
            rcases hsv : save_upload_streaming cfg st.db.seed st.disk form.photo with ⟨res, disk'⟩
            rcases res with e | pr
            · rfl
            · rcases pr with ⟨sp, sb⟩
              simp [commitAdds]

/-- C9 witness: assigning a driver to the closed job leaves its
(id, officer_id) pair intact. -/
theorem c9_officer_id_immutable_witness :
    ((assign_driver dbClosed uAdmin "job-1" ⟨"drv-1"⟩).2.jobs.map
      (fun j => (j.id, j.officer_id)) =
      dbClosed.jobs.map (fun j => (j.id, j.officer_id))) :=
  (c9_officer_id_immutable dbClosed uAdmin "job-1" ⟨"drv-1"⟩ ⟨TowStatus.NEW, none⟩
    (fun _ => none) ⟨8⟩ stEmpty formBadLat (by decide)).1

/-- C10. For every job-scoped operation (update status, upload photo,
download photo, get evidence, get events) the existence check precedes the
access check: a missing job yields 404 for every caller, and a Forbidden
(403) outcome implies the job exists. -/
theorem c10_notfound_before_access (fromiso : String → Option String)
    (cfg : Settings) (cwd : List Nat) (st : SysState) (u : User)
    (jid pid : String) (p : TowJobStatusUpdate) (form : PhotoUploadForm) :
    (findJob st.db.jobs jid = none →
      errStatus (update_status st.db u jid p).1 = some 404 ∧
      errStatus (upload_job_photo fromiso cfg st u jid form).1 = some 404 ∧
      errStatus (download_job_photo cwd st u jid pid) = some 404 ∧
      errStatus (get_job_evidence st.db u jid) = some 404 ∧
      errStatus (get_job_events st.db u jid) = some 404)
  ∧ (∀ d, ((update_status st.db u jid p).1 = Except.error ⟨403, d⟩ ∨
           (upload_job_photo fromiso cfg st u jid form).1 = Except.error ⟨403, d⟩ ∨
           download_job_photo cwd st u jid pid = Except.error ⟨403, d⟩ ∨
           get_job_evidence st.db u jid = Except.error ⟨403, d⟩ ∨
           get_job_events st.db u jid = Except.error ⟨403, d⟩) →
      (findJob st.db.jobs jid).isSome = true) := by
  constructor
  · intro h
    refine ⟨?_, ?_, ?_, ?_, ?_⟩
    · unfold update_status
      rw [h]
      rfl
    · unfold upload_job_photo
      rw [h]
      rfl
    · unfold download_job_photo
      rw [h]
      rfl
    · unfold get_job_evidence
      rw [h]
      rfl
    · unfold get_job_events
      rw [h]
      rfl
  · intro d hd
    rcases hopt : findJob st.db.jobs jid with _ | job
    · exfalso
      rcases hd with h | h | h | h | h
      · unfold update_status at h
        rw [hopt] at h
        simp at h
      · unfold upload_job_photo at h
        rw [hopt] at h
        simp at h
      · unfold download_job_photo at h
        rw [hopt] at h
        simp at h
      · unfold get_job_evidence at h
        rw [hopt] at h
        simp at h
      · unfold get_job_events at h
        rw [hopt] at h
        simp at h
    · rfl

/-- C10 witness: with an empty database every job-scoped operation answers
404 for a job id that does not exist. -/
theorem c10_notfound_before_access_witness :
    errStatus (update_status stEmpty.db uOfficer "ghost" ⟨TowStatus.NEW, none⟩).1 = some 404 ∧
    errStatus (upload_job_photo (fun _ => none) ⟨8⟩ stEmpty uOfficer "ghost" formBadLat).1 =
      some 404 ∧
    errStatus (download_job_photo (str2codes "/srv/app") stEmpty uOfficer "ghost" "ph") =
      some 404 ∧
    errStatus (get_job_evidence stEmpty.db uOfficer "ghost") = some 404 ∧
    errStatus (get_job_events stEmpty.db uOfficer "ghost") = some 404 :=
  (c10_notfound_before_access (fun _ => none) ⟨8⟩ (str2codes "/srv/app") stEmpty
    uOfficer "ghost" "ph" ⟨TowStatus.NEW, none⟩ formBadLat).1 (by decide)

end TowApp
